import Mathlib

/-!
Shallow embedding of the MeasureTool core orchestrator
(src/modules/MeasureTool/MeasureToolCore/PowerToys.MeasureToolCore.cpp and
ToolState.h) and proofs of the specification claims about it.

The orchestrator state (`CoreState`) mirrors the fields of
`winrt::PowerToys::MeasureToolCore::implementation::Core`; external
collaborators (monitor enumeration, overlay-window creation, the settings
file, the DPI query) are passed in as explicit environment arguments so that
each operation is a pure function from state and environment to state plus a
trace of the observable actions it performs.
-/

namespace MeasureToolCore

/-- `MeasureToolState::Mode` from ToolState.h. -/
inductive Mode
  | Horizontal
  | Vertical
  | Cross
deriving DecidableEq, Repr

/-- `D2D1::ColorF`: the three color channels used by the code, as exact
rationals standing for the float fields. -/
structure ColorF where
  r : ℚ
  g : ℚ
  b : ℚ
deriving DecidableEq, Repr

/-- `D2D1::ColorF::OrangeRed` (0xFF4500), the default of
`CommonState::lineColor` in ToolState.h. -/
def orangeRed : ColorF :=
  { r := 255 / 255, g := 69 / 255, b := 0 / 255 }

/-- Win32 `POINT`: two signed 32-bit `LONG` coordinates. -/
structure POINT where
  x : Int
  y : Int
deriving DecidableEq, Repr

/-- Win32 `RECT`: four signed 32-bit `LONG` fields. -/
structure RECT where
  left : Int
  top : Int
  right : Int
  bottom : Int
deriving DecidableEq, Repr

/-- `OverlayBoxText` from ToolState.h: a 32-wide `wchar_t` buffer,
zero-initialized. -/
structure OverlayBoxText where
  buffer : List Nat := List.replicate 32 0
deriving DecidableEq, Repr

/-- `CommonState` from ToolState.h. The `std::function` callback slot is
modelled by an optional identifier of the registered closure. -/
structure CommonState where
  sessionCompletedCallback : Option Nat := none
  lineColor : ColorF := orangeRed
  toolbarBoundingBox : RECT := ⟨0, 0, 0, 0⟩
  overlayBoxText : OverlayBoxText := {}
  cursorPosSystemSpace : POINT := ⟨0, 0⟩
  closeOnOtherMonitors : Bool := false
deriving DecidableEq, Repr

/-- `MeasureToolState::Global` from ToolState.h, with its member default
initializers. -/
structure Global where
  pixelTolerance : Nat := 30
  continuousCapture : Bool := true
  drawFeetOnCross : Bool := true
  perColorChannelEdgeDetection : Bool := false
  mode : Mode := Mode.Cross
deriving DecidableEq, Repr

/-- `MeasureToolState::PerScreen` from ToolState.h; the two GPU resources are
modelled by optional resource identifiers (`winrt::com_ptr` null by
default). -/
structure MeasurePerScreen where
  cursorInLeftScreenHalf : Bool := false
  cursorInTopScreenHalf : Bool := false
  measuredEdges : RECT := ⟨0, 0, 0, 0⟩
  capturedScreenTexture : Option Nat := none
  capturedScreenBitmap : Option Nat := none
deriving DecidableEq, Repr

/-- `MeasureToolState` from ToolState.h. `commonState` is a pointer that is
either null or the address of the orchestrator's single `_commonState`;
it is modelled by a Bool saying whether it is linked. The per-screen map is
an association list keyed by the window handle. -/
structure MeasureToolState where
  global : Global := {}
  perScreen : List (Nat × MeasurePerScreen) := []
  commonStateLinked : Bool := false
deriving DecidableEq, Repr

/-- `BoundsToolState::PerScreen` from ToolState.h. -/
structure BoundsPerScreen where
  currentRegionStart : Option (ℚ × ℚ) := none
  measurements : List (ℚ × ℚ × ℚ × ℚ) := []
deriving DecidableEq, Repr

/-- `BoundsToolState` from ToolState.h, `commonState` modelled as for
`MeasureToolState`. -/
structure BoundsToolState where
  perScreen : List (Nat × BoundsPerScreen) := []
  commonStateLinked : Bool := false
deriving DecidableEq, Repr

/-- The immutable settings snapshot (`Settings::LoadFromFile`), restricted to
the fields the orchestrator reads: three stroke-color byte components and the
four measure-tool options. -/
structure Settings where
  lineColor0 : Nat := 255
  lineColor1 : Nat := 69
  lineColor2 : Nat := 0
  continuousCapture : Bool := true
  drawFeetOnCross : Bool := true
  pixelTolerance : Nat := 30
  perColorChannelEdgeDetection : Bool := false
deriving DecidableEq, Repr

/-- One entry of `_overlayUIStates`: an overlay surface wrapping its window
handle (`OverlayUIState::overlayWindowHandle`). -/
structure OverlaySurface where
  windowHandle : Nat
deriving DecidableEq, Repr

/-- One entry of `_screenCaptureThreads`: a capture `std::thread`, recording
the window handle it was bound to at creation and whether it is joinable. -/
structure CaptureThread where
  boundWindowHandle : Nat
  joinable : Bool
deriving DecidableEq, Repr

/-- The data members of `Core` (PowerToys.MeasureToolCore.h) relevant to the
claims. -/
structure CoreState where
  overlayUIStates : List OverlaySurface := []
  screenCaptureThreads : List CaptureThread := []
  measureToolState : MeasureToolState := {}
  boundsToolState : BoundsToolState := {}
  commonState : CommonState := {}
  settings : Settings := {}
deriving DecidableEq, Repr

/-- Observable actions of the orchestrator, used to state ordering
properties. -/
inductive Event
  | signalStopMouseThread
  | joinMouseThread
  | clearOverlaySurfaces
  | joinCaptureThread (boundWindowHandle : Nat)
  | loadSettings
  | unregisterTraceProvider
  | traceBoundsToolActivated
  | traceMeasureToolActivated
deriving DecidableEq, Repr

/-- `Core::ResetState` (PowerToys.MeasureToolCore.cpp lines 50-74), following
the source order: set `closeOnOtherMonitors` to true, clear the overlay
surfaces, replace `_boundsToolState` with a fresh record linked to
`_commonState`, join every joinable capture thread and clear the thread list,
reset `_measureToolState` and re-link it, reload the settings, derive the
stroke color from them, and finally set `closeOnOtherMonitors` back to
false. Returns the new state and the trace of observable actions.
`Serialized<MeasureToolState>::Reset` is not under src/; modelled from the
spec: "clears both tool states", i.e. it restores the default-constructed
record. -/
def ResetState (loadedSettings : Settings) (s : CoreState) : CoreState × List Event :=
  let joins := (s.screenCaptureThreads.filter (fun t => t.joinable)).map
    (fun t => Event.joinCaptureThread t.boundWindowHandle)
  let cs : CommonState :=
    { s.commonState with
      lineColor :=
        { r := (loadedSettings.lineColor0 : ℚ) / 255
          g := (loadedSettings.lineColor1 : ℚ) / 255
          b := (loadedSettings.lineColor2 : ℚ) / 255 }
      closeOnOtherMonitors := false }
  (⟨[], [], { commonStateLinked := true }, { commonStateLinked := true }, cs,
     loadedSettings⟩,
   Event.clearOverlaySurfaces :: joins ++ [Event.loadSettings])

/-- The mode derivation inside `Core::StartMeasureTool` (lines 100-104). -/
def deriveMode (horizontal vertical : Bool) : Mode :=
  if horizontal then
    if vertical then Mode.Cross else Mode.Horizontal
  else Mode.Vertical

/-- The environment of a tool start: the ordered list of enumerated monitors
(`MonitorInfo::GetMonitors(true)`), each carrying the outcome of
`OverlayUIState::Create` for it — `none` when creation fails (null pointer),
`some h` when it succeeds with overlay window handle `h`. -/
def MonitorOutcomes : Type := List (Option Nat)

/-- `Core::StartBoundsTool` (lines 76-94): reset state, then for every
enumerated monitor create an overlay surface, skipping (`continue`) any
monitor whose creation fails, and finally emit the activation trace event. -/
def StartBoundsTool (loadedSettings : Settings) (monitors : MonitorOutcomes)
    (s : CoreState) : CoreState × List Event :=
  let (s1, tr) := ResetState loadedSettings s
  let surfaces := (monitors.filterMap id).map (fun h => OverlaySurface.mk h)
  ({ s1 with overlayUIStates := surfaces },
   tr ++ [Event.traceBoundsToolActivated])

/-- `Core::StartMeasureTool` (lines 96-130): reset state, derive the mode
from the two flags and copy the settings into the global sub-record, then for
every enumerated monitor create an overlay surface — skipping failures — and,
for each created surface, a capture thread bound to that surface's window
handle (`overlayUI->overlayWindowHandle()`); finally emit the activation
trace event. -/
def StartMeasureTool (loadedSettings : Settings) (monitors : MonitorOutcomes)
    (horizontal vertical : Bool) (s : CoreState) : CoreState × List Event :=
  let (s1, tr) := ResetState loadedSettings s
  let g : Global :=
    { mode := deriveMode horizontal vertical
      continuousCapture := loadedSettings.continuousCapture
      drawFeetOnCross := loadedSettings.drawFeetOnCross
      pixelTolerance := loadedSettings.pixelTolerance
      perColorChannelEdgeDetection := loadedSettings.perColorChannelEdgeDetection }
  let created := monitors.filterMap id
  ({ s1 with
     measureToolState := { s1.measureToolState with global := g }
     overlayUIStates := created.map (fun h => OverlaySurface.mk h)
     screenCaptureThreads := created.map (fun h => CaptureThread.mk h true) },
   tr ++ [Event.traceMeasureToolActivated])

/-- `Core::SetToolCompletionEvent` (lines 132-137): store the callback in the
`CommonState` slot, replacing any prior registration. -/
def SetToolCompletionEvent (callbackId : Nat) (s : CoreState) : CoreState :=
  { s with commonState :=
      { s.commonState with sessionCompletedCallback := some callbackId } }

/-- Two's-complement reinterpretation of a `uint32_t` value as a signed
32-bit `long`, as performed by `static_cast<long>` on Windows (LLP64:
`long` is 32 bits). -/
def toSigned32 (n : Nat) : Int :=
  if n % 2 ^ 32 < 2 ^ 31 then ((n % 2 ^ 32 : Nat) : Int)
  else ((n % 2 ^ 32 : Nat) : Int) - 2 ^ 32

/-- `Core::SetToolbarBoundingBox` (lines 139-148): store the four `uint32_t`
arguments into the `RECT` of `_commonState.toolbarBoundingBox`, each through
`static_cast<long>`. -/
def SetToolbarBoundingBox (fromX fromY toX toY : Nat) (s : CoreState) : CoreState :=
  { s with commonState :=
      { s.commonState with toolbarBoundingBox :=
          ⟨toSigned32 fromX, toSigned32 fromY, toSigned32 toX, toSigned32 toY⟩ } }

/-- `DPIAware::DEFAULT_DPI`. -/
def DEFAULT_DPI : Nat := 96

/-- `Core::GetDPIScaleForWindow` (lines 150-155): initialize `dpi` to the
default DPI, let the (out-of-scope, modelled as an oracle) query
`DPIAware::GetScreenDPIForWindow` overwrite it on success and leave it
untouched on failure, and return `dpi / DEFAULT_DPI`. The float result is
modelled as an exact rational. It reads, and does not modify, the core
state. -/
def GetDPIScaleForWindow (dpiQuery : Nat → Option Nat) (windowHandle : Nat)
    (s : CoreState) : CoreState × ℚ :=
  let dpi := (dpiQuery windowHandle).getD DEFAULT_DPI
  (s, (dpi : ℚ) / (DEFAULT_DPI : ℚ))

/-- `Core::~Core` (lines 41-48): signal the mouse-capture stop event, join
the mouse-capture thread, run `ResetState`, unregister the trace
provider. -/
def coreDestructor (loadedSettings : Settings) (s : CoreState) :
    CoreState × List Event :=
  let (s1, tr) := ResetState loadedSettings s
  (s1,
   Event.signalStopMouseThread :: Event.joinMouseThread ::
     tr ++ [Event.unregisterTraceProvider])

/-! ### The mouse-capture (cursor poll) thread

`Core::MouseCaptureThread` (lines 21-31) publishes the sampled `POINT` into
`_commonState.cursorPosSystemSpace` via `InterlockedExchange64` of
`std::bit_cast<LONG64>(cursorPos)`: one atomic write of the whole 64-bit bit
pattern. We model the bit pattern explicitly. -/

/-- A `LONG` coordinate is a valid signed 32-bit value. -/
def validLONG (x : Int) : Prop := -(2 ^ 31) ≤ x ∧ x < 2 ^ 31

instance (x : Int) : Decidable (validLONG x) := by
  unfold validLONG; infer_instance

/-- A `POINT` whose two `LONG` fields are in range. -/
def validPOINT (p : POINT) : Prop := validLONG p.x ∧ validLONG p.y

instance (p : POINT) : Decidable (validPOINT p) := by
  unfold validPOINT; infer_instance

/-- Two's-complement bit pattern of a `LONG` as a 32-bit unsigned value. -/
def long32ToBits (x : Int) : Nat := (x % 2 ^ 32).toNat

/-- `std::bit_cast<LONG64>(POINT x y)` on a little-endian x86/x64 target:
`x` occupies the low 32 bits, `y` the high 32 bits. -/
def pointToBits64 (p : POINT) : Nat :=
  long32ToBits p.x + 2 ^ 32 * long32ToBits p.y

/-- Reading a `POINT` back out of a 64-bit bit pattern. -/
def bits64ToPoint (w : Nat) : POINT :=
  ⟨toSigned32 (w % 2 ^ 32), toSigned32 (w / 2 ^ 32)⟩

/-- One observable step of the mouse-capture thread. -/
inductive PollEvent
  /-- `InterlockedExchange64` of the full 64-bit encoded cursor sample. -/
  | atomicWrite64 (bits : Nat)
  /-- `std::this_thread::sleep_for(consts::TARGET_FRAME_DURATION)`. -/
  | sleepOneFrameTick
deriving DecidableEq, Repr

/-- The environment of the poll loop: for each iteration, whether
`_stopMouseCaptureThreadSignal.is_signaled()` returns true and, if not, the
cursor position `GetCursorPos` reports. The run is the finite trace of
observable actions: the loop checks the stop signal; when signaled it exits
at once, otherwise it atomically publishes the whole encoded sample and
sleeps exactly one target-frame-duration tick before re-checking. -/
def MouseCaptureThreadRun : List (Bool × POINT) → List PollEvent
  | [] => []
  | (stopSignaled, sample) :: rest =>
    if stopSignaled then []
    else
      PollEvent.atomicWrite64 (pointToBits64 sample) ::
        PollEvent.sleepOneFrameTick :: MouseCaptureThreadRun rest

/-! ### Helper lemmas -/

/-- Two's-complement reinterpretation of a below-`2^32` value: result range,
congruence modulo `2^32`, and exact preservation below `2^31`. -/
theorem toSigned32_spec (n : Nat) (h : n < 2 ^ 32) :
    -(2 ^ 31) ≤ toSigned32 n ∧ toSigned32 n < 2 ^ 31 ∧
      toSigned32 n % 2 ^ 32 = (n : Int) ∧ (n < 2 ^ 31 → toSigned32 n = (n : Int)) := by
  unfold toSigned32
  split_ifs <;> omega

/-- Round trip of one 32-bit coordinate through its bit pattern. -/
theorem toSigned32_long32ToBits (x : Int) (h : validLONG x) :
    toSigned32 (long32ToBits x) = x := by
  obtain ⟨h1, h2⟩ := h
  unfold toSigned32 long32ToBits
  split_ifs <;> omega

/-- A valid coordinate's bit pattern fits in 32 bits. -/
theorem long32ToBits_lt (x : Int) : long32ToBits x < 2 ^ 32 := by
  unfold long32ToBits
  omega

/-- The 64-bit bit pattern of a valid `POINT` round-trips: reading the word
back yields exactly the point that was written, and the word fits in 64
bits. -/
theorem bits64_roundtrip (p : POINT) (h : validPOINT p) :
    pointToBits64 p < 2 ^ 64 ∧ bits64ToPoint (pointToBits64 p) = p := by
  obtain ⟨x, y⟩ := p
  obtain ⟨hx, hy⟩ := h
  have hxb := long32ToBits_lt x
  have hyb := long32ToBits_lt y
  have hpt : pointToBits64 ⟨x, y⟩ = long32ToBits x + 2 ^ 32 * long32ToBits y := rfl
  constructor
  · rw [hpt]
    omega
  · have hmod : pointToBits64 ⟨x, y⟩ % 2 ^ 32 = long32ToBits x := by
      rw [hpt]
      omega
    have hdiv : pointToBits64 ⟨x, y⟩ / 2 ^ 32 = long32ToBits y := by
      rw [hpt]
      omega
    show POINT.mk (toSigned32 (pointToBits64 ⟨x, y⟩ % 2 ^ 32))
        (toSigned32 (pointToBits64 ⟨x, y⟩ / 2 ^ 32)) = ⟨x, y⟩
    rw [hmod, hdiv, toSigned32_long32ToBits x hx, toSigned32_long32ToBits y hy]

/-- Every 64-bit word is the bit pattern of exactly one valid `POINT`:
the encoding is onto `[0, 2^64)`. -/
theorem bits64_surjective (w : Nat) (h : w < 2 ^ 64) :
    validPOINT (bits64ToPoint w) ∧ pointToBits64 (bits64ToPoint w) = w := by
  obtain ⟨hx1, hx2, hx3, -⟩ := toSigned32_spec (w % 2 ^ 32) (by omega)
  obtain ⟨hy1, hy2, hy3, -⟩ := toSigned32_spec (w / 2 ^ 32) (by omega)
  refine ⟨⟨⟨hx1, hx2⟩, ⟨hy1, hy2⟩⟩, ?_⟩
  show long32ToBits (toSigned32 (w % 2 ^ 32)) +
      2 ^ 32 * long32ToBits (toSigned32 (w / 2 ^ 32)) = w
  unfold long32ToBits
  omega

/-- Predicate selecting the atomic publications in a poll-thread trace. -/
def isAtomicWrite : PollEvent → Bool
  | PollEvent.atomicWrite64 _ => true
  | PollEvent.sleepOneFrameTick => false

/-! ### Claim theorems -/

/-- Claim C1: for every pair of boolean arguments, `StartMeasureTool`
(horizontal, vertical) sets the global Mode as follows: both true yields
Cross; horizontal only yields Horizontal; in every other case — including
horizontal=false, vertical=true and both false — it yields Vertical. -/
theorem startMeasureTool_mode (ls : Settings) (monitors : MonitorOutcomes)
    (s : CoreState) :
    (StartMeasureTool ls monitors true true s).1.measureToolState.global.mode =
        Mode.Cross ∧
    (StartMeasureTool ls monitors true false s).1.measureToolState.global.mode =
        Mode.Horizontal ∧
    (StartMeasureTool ls monitors false true s).1.measureToolState.global.mode =
        Mode.Vertical ∧
    (StartMeasureTool ls monitors false false s).1.measureToolState.global.mode =
        Mode.Vertical :=
  ⟨rfl, rfl, rfl, rfl⟩

/-- Claim C2: for every set of enumerated monitors, `StartBoundsTool` creates
at most N overlay surfaces and exactly 0 capture threads; the surfaces are
exactly those of the monitors whose creation succeeded, in order (failed
monitors are skipped), and the session always runs to completion, emitting
its activation event. -/
theorem startBoundsTool_surfaces (ls : Settings) (monitors : MonitorOutcomes)
    (s : CoreState) :
    (StartBoundsTool ls monitors s).1.overlayUIStates.length ≤ monitors.length ∧
    (StartBoundsTool ls monitors s).1.screenCaptureThreads = [] ∧
    (StartBoundsTool ls monitors s).1.overlayUIStates =
      (monitors.filterMap id).map (fun h => OverlaySurface.mk h) ∧
    (StartBoundsTool ls monitors s).2.getLast? =
      some Event.traceBoundsToolActivated := by
  refine ⟨?_, rfl, rfl, ?_⟩
  · have h1 : (StartBoundsTool ls monitors s).1.overlayUIStates =
        (monitors.filterMap id).map (fun h => OverlaySurface.mk h) := rfl
    rw [h1, List.length_map]
    exact List.length_filterMap_le id monitors
  · show ((ResetState ls s).2 ++ [Event.traceBoundsToolActivated]).getLast? =
      some Event.traceBoundsToolActivated
    exact List.getLast?_concat _

/-- Claim C3: after `StartMeasureTool`, the number of capture threads equals
the number of successfully created overlay surfaces (at most the number of
monitors), and the i-th capture thread is bound to the i-th surface's window
handle. -/
theorem startMeasureTool_threads (ls : Settings) (monitors : MonitorOutcomes)
    (horizontal vertical : Bool) (s : CoreState) :
    (StartMeasureTool ls monitors horizontal vertical s).1.screenCaptureThreads.length =
      (StartMeasureTool ls monitors horizontal vertical s).1.overlayUIStates.length ∧
    (StartMeasureTool ls monitors horizontal vertical s).1.overlayUIStates.length ≤
      monitors.length ∧
    (StartMeasureTool ls monitors horizontal vertical s).1.screenCaptureThreads.map
        (fun t => t.boundWindowHandle) =
      (StartMeasureTool ls monitors horizontal vertical s).1.overlayUIStates.map
        (fun o => o.windowHandle) := by
  have hsurf : (StartMeasureTool ls monitors horizontal vertical s).1.overlayUIStates =
      (monitors.filterMap id).map (fun h => OverlaySurface.mk h) := rfl
  have hthr : (StartMeasureTool ls monitors horizontal vertical s).1.screenCaptureThreads =
      (monitors.filterMap id).map (fun h => CaptureThread.mk h true) := rfl
  refine ⟨?_, ?_, ?_⟩
  · rw [hsurf, hthr, List.length_map, List.length_map]
  · rw [hsurf, List.length_map]
    exact List.length_filterMap_le id monitors
  · rw [hsurf, hthr, List.map_map, List.map_map]
    rfl

/-- Claim C4: `ResetState` is idempotent and leak-free: after it the
overlay-surface list is empty, every joinable capture thread has been joined
and the capture-thread list is empty; running it again from the resulting
state yields the same state and performs no further joins, so it is safe to
call repeatedly. -/
theorem resetState_idempotent (ls : Settings) (s : CoreState) :
    (ResetState ls s).1.overlayUIStates = [] ∧
    (ResetState ls s).1.screenCaptureThreads = [] ∧
    (∀ t ∈ s.screenCaptureThreads, t.joinable = true →
      Event.joinCaptureThread t.boundWindowHandle ∈ (ResetState ls s).2) ∧
    ResetState ls (ResetState ls s).1 =
      ((ResetState ls s).1, [Event.clearOverlaySurfaces, Event.loadSettings]) := by
  refine ⟨rfl, rfl, ?_, rfl⟩
  intro t ht hj
  show Event.joinCaptureThread t.boundWindowHandle ∈
    Event.clearOverlaySurfaces ::
      ((s.screenCaptureThreads.filter (fun t => t.joinable)).map
          (fun t => Event.joinCaptureThread t.boundWindowHandle) ++
        [Event.loadSettings])
  simp only [List.mem_cons, List.mem_append, List.mem_map, List.mem_filter]
  exact Or.inr (Or.inl ⟨t, ⟨ht, hj⟩, rfl⟩)

/-- Claim C4 witness: a concrete prior state with one joinable capture
thread. -/
theorem resetState_idempotent_witness :
    Event.joinCaptureThread 42 ∈
      (ResetState {} { screenCaptureThreads := [CaptureThread.mk 42 true] }).2 :=
  (resetState_idempotent {} { screenCaptureThreads := [CaptureThread.mk 42 true] }).2.2.1
    (CaptureThread.mk 42 true) (by simp) rfl

/-- A prior state in which every `CommonState` field differs from its initial
value, used to exhibit the fields `ResetState` does not restore. -/
def dirtyCore : CoreState :=
  { commonState :=
      { sessionCompletedCallback := some 7
        lineColor := orangeRed
        toolbarBoundingBox := ⟨1, 2, 3, 4⟩
        overlayBoxText := { buffer := List.replicate 32 65 }
        cursorPosSystemSpace := ⟨10, 20⟩
        closeOnOtherMonitors := true } }

/-- Claim C5 counterexample: after `ResetState` the completion callback, the
toolbar bounding box, the cursor position and the readout text buffer keep
their prior values — they are not back to the initial values of a fresh
`CommonState`, so the `CommonState` is not fully reset. -/
theorem resetState_not_full_reset :
    (ResetState {} dirtyCore).1.commonState.sessionCompletedCallback ≠
        ({} : CommonState).sessionCompletedCallback ∧
    (ResetState {} dirtyCore).1.commonState.toolbarBoundingBox ≠
        ({} : CommonState).toolbarBoundingBox ∧
    (ResetState {} dirtyCore).1.commonState.cursorPosSystemSpace ≠
        ({} : CommonState).cursorPosSystemSpace ∧
    (ResetState {} dirtyCore).1.commonState.overlayBoxText ≠
        ({} : CommonState).overlayBoxText := by
  refine ⟨?_, ?_, ?_, ?_⟩ <;> decide

/-- Claim C5 (amended): after every `ResetState` both tool states are cleared
and re-linked to the orchestrator's `CommonState`, whose
close-on-other-monitors flag is reset to false and whose stroke color is
re-derived from the loaded settings; the completion callback, toolbar
bounding box, cursor position and readout text buffer retain their prior
values. -/
theorem resetState_common_state (ls : Settings) (s : CoreState) :
    (ResetState ls s).1.boundsToolState =
        { perScreen := [], commonStateLinked := true } ∧
    (ResetState ls s).1.measureToolState.commonStateLinked = true ∧
    (ResetState ls s).1.commonState.closeOnOtherMonitors = false ∧
    (ResetState ls s).1.commonState.lineColor =
      ⟨(ls.lineColor0 : ℚ) / 255, (ls.lineColor1 : ℚ) / 255,
        (ls.lineColor2 : ℚ) / 255⟩ ∧
    (ResetState ls s).1.commonState.sessionCompletedCallback =
      s.commonState.sessionCompletedCallback ∧
    (ResetState ls s).1.commonState.toolbarBoundingBox =
      s.commonState.toolbarBoundingBox ∧
    (ResetState ls s).1.commonState.cursorPosSystemSpace =
      s.commonState.cursorPosSystemSpace ∧
    (ResetState ls s).1.commonState.overlayBoxText =
      s.commonState.overlayBoxText :=
  ⟨rfl, rfl, rfl, rfl, rfl, rfl, rfl, rfl⟩

/-- Claim C6: `GetDPIScaleForWindow` does not modify the core state; on a
successful DPI query it returns the window's monitor DPI divided by the
default DPI, and on query failure it returns the 1.0-equivalent scale
(default DPI over default DPI) rather than failing. -/
theorem getDPIScaleForWindow_spec (dpiQuery : Nat → Option Nat)
    (windowHandle : Nat) (s : CoreState) :
    (GetDPIScaleForWindow dpiQuery windowHandle s).1 = s ∧
    (∀ d, dpiQuery windowHandle = some d →
      (GetDPIScaleForWindow dpiQuery windowHandle s).2 = (d : ℚ) / 96) ∧
    (dpiQuery windowHandle = none →
      (GetDPIScaleForWindow dpiQuery windowHandle s).2 = (96 : ℚ) / 96 ∧
      (GetDPIScaleForWindow dpiQuery windowHandle s).2 = 1) := by
  refine ⟨rfl, ?_, ?_⟩
  · intro d hd
    simp [GetDPIScaleForWindow, hd, DEFAULT_DPI]
  · intro hn
    refine ⟨?_, ?_⟩ <;> simp [GetDPIScaleForWindow, hn, DEFAULT_DPI]

/-- Claim C6 witness: concrete query outcomes (a 144-DPI monitor and a
failing query). -/
theorem getDPIScaleForWindow_spec_witness :
    (GetDPIScaleForWindow (fun _ => some 144) 3 {}).2 = (144 : ℚ) / 96 ∧
    (GetDPIScaleForWindow (fun _ => none) 3 {}).2 = 1 :=
  ⟨(getDPIScaleForWindow_spec (fun _ => some 144) 3 {}).2.1 144 rfl,
   ((getDPIScaleForWindow_spec (fun _ => none) 3 {}).2.2 rfl).2⟩

/-- Claim C7: the destructor's trace starts with signalling the mouse-capture
stop event, then joins the mouse-capture thread; everything after those two
actions is exactly the `ResetState` teardown followed, last of all, by
unregistering the trace provider — and none of the teardown actions is a
poll-thread action or the unregistration, so the poll thread is stopped and
joined before teardown begins and tracing is unregistered only after teardown
completes. -/
theorem coreDestructor_order (ls : Settings) (s : CoreState) :
    (coreDestructor ls s).2.head? = some Event.signalStopMouseThread ∧
    (coreDestructor ls s).2[1]? = some Event.joinMouseThread ∧
    List.drop 2 (coreDestructor ls s).2 =
      (ResetState ls s).2 ++ [Event.unregisterTraceProvider] ∧
    (coreDestructor ls s).2.getLast? = some Event.unregisterTraceProvider ∧
    Event.unregisterTraceProvider ∉ (ResetState ls s).2 ∧
    Event.signalStopMouseThread ∉ (ResetState ls s).2 ∧
    Event.joinMouseThread ∉ (ResetState ls s).2 := by
  have hreset : (ResetState ls s).2 =
      Event.clearOverlaySurfaces ::
        ((s.screenCaptureThreads.filter (fun t => t.joinable)).map
            (fun t => Event.joinCaptureThread t.boundWindowHandle) ++
          [Event.loadSettings]) := rfl
  refine ⟨rfl, rfl, rfl, ?_, ?_, ?_, ?_⟩
  · show ((Event.signalStopMouseThread :: Event.joinMouseThread ::
        (ResetState ls s).2) ++ [Event.unregisterTraceProvider]).getLast? =
      some Event.unregisterTraceProvider
    exact List.getLast?_concat _
  · rw [hreset]
    simp [List.mem_map]
  · rw [hreset]
    simp [List.mem_map]
  · rw [hreset]
    simp [List.mem_map]

/-- Every published word of a poll-thread run is the encoding of one
non-stopped iteration's cursor sample. -/
theorem mouseCaptureThreadRun_writes (sched : List (Bool × POINT)) (w : Nat)
    (hw : PollEvent.atomicWrite64 w ∈ MouseCaptureThreadRun sched) :
    ∃ e ∈ sched, e.1 = false ∧ w = pointToBits64 e.2 := by
  induction sched with
  | nil => simp [MouseCaptureThreadRun] at hw
  | cons e rest ih =>
    obtain ⟨b, p⟩ := e
    cases b with
    | true => simp [MouseCaptureThreadRun] at hw
    | false =>
      rw [show MouseCaptureThreadRun ((false, p) :: rest) =
          PollEvent.atomicWrite64 (pointToBits64 p) ::
            PollEvent.sleepOneFrameTick :: MouseCaptureThreadRun rest from rfl] at hw
      rcases List.mem_cons.1 hw with h | hw2
      · exact ⟨(false, p), List.mem_cons_self _ _, rfl, PollEvent.atomicWrite64.inj h⟩
      · rcases List.mem_cons.1 hw2 with h | hw3
        · exact absurd h (by simp)
        · obtain ⟨e, he, hfst, hbits⟩ := ih hw3
          exact ⟨e, List.mem_cons_of_mem _ he, hfst, hbits⟩

/-- Every poll-thread run sleeps exactly one frame tick per published
sample. -/
theorem mouseCaptureThreadRun_count (sched : List (Bool × POINT)) :
    (MouseCaptureThreadRun sched).count PollEvent.sleepOneFrameTick =
      (MouseCaptureThreadRun sched).countP isAtomicWrite := by
  induction sched with
  | nil => rfl
  | cons e rest ih =>
    obtain ⟨b, p⟩ := e
    cases b with
    | true => rfl
    | false =>
      rw [show MouseCaptureThreadRun ((false, p) :: rest) =
          PollEvent.atomicWrite64 (pointToBits64 p) ::
            PollEvent.sleepOneFrameTick :: MouseCaptureThreadRun rest from rfl]
      simp [List.count_cons, List.countP_cons, isAtomicWrite, ih]

/-- Claim C8: in every run of the mouse-capture loop, (i) each published
value is a single 64-bit word that is the complete encoding of exactly one
iteration's cursor sample — decoding it recovers both coordinates of that
same sample, so no reader can observe an x from one sample with a y from
another; (ii) each published sample is followed by exactly one
target-frame-duration sleep tick; (iii) the loop terminates immediately when
the stop signal is observed; and (iv) the `POINT` record occupies exactly the
same value space as a 64-bit integer (the `static_assert`): encoding is a
bijection between valid points and `[0, 2^64)`. -/
theorem mouseCaptureThread_spec (sched : List (Bool × POINT))
    (hval : ∀ e ∈ sched, validPOINT e.2) :
    (∀ w, PollEvent.atomicWrite64 w ∈ MouseCaptureThreadRun sched →
      ∃ e ∈ sched, e.1 = false ∧ w = pointToBits64 e.2 ∧ w < 2 ^ 64 ∧
        bits64ToPoint w = e.2) ∧
    (MouseCaptureThreadRun sched).count PollEvent.sleepOneFrameTick =
      (MouseCaptureThreadRun sched).countP isAtomicWrite ∧
    (∀ p rest, MouseCaptureThreadRun ((true, p) :: rest) = []) ∧
    (∀ p, validPOINT p →
      pointToBits64 p < 2 ^ 64 ∧ bits64ToPoint (pointToBits64 p) = p) ∧
    (∀ w, w < 2 ^ 64 →
      validPOINT (bits64ToPoint w) ∧ pointToBits64 (bits64ToPoint w) = w) := by
  refine ⟨?_, mouseCaptureThreadRun_count sched, fun p rest => rfl,
    bits64_roundtrip, bits64_surjective⟩
  intro w hw
  obtain ⟨e, he, hfst, hbits⟩ := mouseCaptureThreadRun_writes sched w hw
  obtain ⟨hlt, hdec⟩ := bits64_roundtrip e.2 (hval e he)
  exact ⟨e, he, hfst, hbits, hbits ▸ hlt, hbits ▸ hdec⟩

/-- A concrete poll-loop schedule: one normal iteration sampling `(3, -4)`,
then the stop signal. -/
def pollSched : List (Bool × POINT) := [(false, ⟨3, -4⟩), (true, ⟨0, 0⟩)]

/-- Claim C8 witness: the spec theorem applied to the concrete schedule
`pollSched`, with the published word of its first iteration. -/
theorem mouseCaptureThread_spec_witness :
    (∃ e ∈ pollSched, e.1 = false ∧
        pointToBits64 ⟨3, -4⟩ = pointToBits64 e.2 ∧ pointToBits64 ⟨3, -4⟩ < 2 ^ 64 ∧
        bits64ToPoint (pointToBits64 ⟨3, -4⟩) = e.2) ∧
    (MouseCaptureThreadRun pollSched).count PollEvent.sleepOneFrameTick =
      (MouseCaptureThreadRun pollSched).countP isAtomicWrite :=
  ⟨(mouseCaptureThread_spec pollSched (by decide)).1 (pointToBits64 ⟨3, -4⟩)
      (List.mem_cons_self _ _),
   (mouseCaptureThread_spec pollSched (by decide)).2.1⟩

/-- Claim C9 counterexample: with `fromX = 2^31`, the stored left edge is not
`2^31` — the `static_cast<long>` to a signed 32-bit field wraps it to
`-2^31`, so values at or above `2^31` are not preserved exactly. -/
theorem setToolbarBoundingBox_not_exact :
    (SetToolbarBoundingBox (2 ^ 31) 0 0 0 {}).commonState.toolbarBoundingBox.left ≠
        ((2 ^ 31 : Nat) : Int) ∧
    (SetToolbarBoundingBox (2 ^ 31) 0 0 0 {}).commonState.toolbarBoundingBox.left =
        -(2 ^ 31) := by
  refine ⟨?_, ?_⟩ <;> decide

/-- A stored signed 32-bit field holds the two's-complement reinterpretation
of an unsigned 32-bit argument: it lies in `[-2^31, 2^31)`, is congruent to
the argument modulo `2^32`, and equals the argument exactly when the argument
is below `2^31`. -/
def storesUInt32AsSigned32 (stored : Int) (arg : Nat) : Prop :=
  -(2 ^ 31) ≤ stored ∧ stored < 2 ^ 31 ∧ stored % 2 ^ 32 = (arg : Int) ∧
    (arg < 2 ^ 31 → stored = (arg : Int))

/-- Claim C9 (amended): after `SetToolbarBoundingBox`, each field of the
stored toolbar bounding box is the unique signed 32-bit value congruent to
the corresponding unsigned 32-bit argument modulo `2^32`: arguments below
`2^31` are preserved exactly, while arguments at or above `2^31` are stored
as negative values through the two's-complement cast. -/
theorem setToolbarBoundingBox_twosComplement (fromX fromY toX toY : Nat)
    (s : CoreState) (h1 : fromX < 2 ^ 32) (h2 : fromY < 2 ^ 32)
    (h3 : toX < 2 ^ 32) (h4 : toY < 2 ^ 32) :
    storesUInt32AsSigned32
      ((SetToolbarBoundingBox fromX fromY toX toY s).commonState.toolbarBoundingBox.left)
      fromX ∧
    storesUInt32AsSigned32
      ((SetToolbarBoundingBox fromX fromY toX toY s).commonState.toolbarBoundingBox.top)
      fromY ∧
    storesUInt32AsSigned32
      ((SetToolbarBoundingBox fromX fromY toX toY s).commonState.toolbarBoundingBox.right)
      toX ∧
    storesUInt32AsSigned32
      ((SetToolbarBoundingBox fromX fromY toX toY s).commonState.toolbarBoundingBox.bottom)
      toY :=
  ⟨toSigned32_spec fromX h1, toSigned32_spec fromY h2,
   toSigned32_spec toX h3, toSigned32_spec toY h4⟩

/-- Claim C9 witness: concrete arguments on both sides of `2^31`. -/
theorem setToolbarBoundingBox_twosComplement_witness :
    storesUInt32AsSigned32
      ((SetToolbarBoundingBox (2 ^ 31 + 7) 5 4294967295 0 {}).commonState.toolbarBoundingBox.left)
      (2 ^ 31 + 7) ∧
    storesUInt32AsSigned32
      ((SetToolbarBoundingBox (2 ^ 31 + 7) 5 4294967295 0 {}).commonState.toolbarBoundingBox.top)
      5 ∧
    storesUInt32AsSigned32
      ((SetToolbarBoundingBox (2 ^ 31 + 7) 5 4294967295 0 {}).commonState.toolbarBoundingBox.right)
      4294967295 ∧
    storesUInt32AsSigned32
      ((SetToolbarBoundingBox (2 ^ 31 + 7) 5 4294967295 0 {}).commonState.toolbarBoundingBox.bottom)
      0 :=
  setToolbarBoundingBox_twosComplement (2 ^ 31 + 7) 5 4294967295 0 {}
    (by norm_num) (by norm_num) (by norm_num) (by norm_num)

/-- Claim C10: after every `ResetState` the measure tool's global sub-record
holds its member-initializer defaults — pixel tolerance 30, continuous
capture on, feet-on-cross on, per-channel edge detection off, Cross mode —
and the per-monitor map is empty; `StartMeasureTool` then overwrites the
global sub-record from the settings snapshot and the two mode flags. -/
theorem resetState_measure_defaults (ls : Settings) (monitors : MonitorOutcomes)
    (horizontal vertical : Bool) (s : CoreState) :
    (ResetState ls s).1.measureToolState.global.pixelTolerance = 30 ∧
    (ResetState ls s).1.measureToolState.global.continuousCapture = true ∧
    (ResetState ls s).1.measureToolState.global.drawFeetOnCross = true ∧
    (ResetState ls s).1.measureToolState.global.perColorChannelEdgeDetection = false ∧
    (ResetState ls s).1.measureToolState.global.mode = Mode.Cross ∧
    (ResetState ls s).1.measureToolState.perScreen = [] ∧
    (StartMeasureTool ls monitors horizontal vertical s).1.measureToolState.global =
      { pixelTolerance := ls.pixelTolerance
        continuousCapture := ls.continuousCapture
        drawFeetOnCross := ls.drawFeetOnCross
        perColorChannelEdgeDetection := ls.perColorChannelEdgeDetection
        mode := deriveMode horizontal vertical } :=
  ⟨rfl, rfl, rfl, rfl, rfl, rfl, rfl⟩

end MeasureToolCore
